import Mathlib

/-!
Shallow embedding of the NAT translation engine of `nat/translation.go`
(package `nat` of nff-go-nat): the connection-tracking state of one port
pair, the two per-packet decision procedures `PublicToPrivateTranslation`
(ingress) and `PrivateToPublicTranslation` (egress), the egress allocation
step `allocateNewEgressConnection` and the TCP termination tracker
`checkTCPTermination`.

Modelling conventions:
  * machine integers (addresses, ports, MAC addresses, flag bytes) are
    `Nat`; timestamps and durations are `Int` (`time.Since` may be
    negative); the current time is passed explicitly where the source
    calls `time.Now()`;
  * the `sync.Map` translation tables (whose dynamically typed keys are
    either an IPv4 `Tuple` or an IPv6 `Tuple6`) are extensional maps
    `TKey → Option TKey`; the per-port `portMapEntry` arrays, indexed by
    address family, protocol and port number, are total functions;
  * the external collaborators (ARP, DHCP, ICMP handlers, packet field
    accessors) are represented by the decision they report, carried on
    the packet record; the byte-order swap `packet.SwapBytesIPv4Addr`
    is embedded as the 32-bit byte swap it is;
  * the pair mutex is not modelled: every operation is a function from
    state to state (per-packet processing is a synchronous computation);
  * in-place packet header rewrites (Ether/VLAN/IP/L4 fields of the
    forwarded packet) mutate only the packet, not the tracked state, and
    are not modelled; each entry point returns its direction decision
    together with the post-state.
-/

namespace NffgoNat

/-- Routing decision returned by the entry points (`DirDROP`, `DirSEND`,
`DirKNI` of the source). -/
inductive Dir where
  | DROP : Dir
  | SEND : Dir
  | KNI : Dir
deriving DecidableEq, Repr

/-- `Tuple` is a pair of IPv4 address and port (source lines 16–19). -/
structure Tuple where
  addr : Nat
  port : Nat
deriving DecidableEq, Repr

/-- `Tuple6` is a pair of IPv6 address and port (source lines 21–24). -/
structure Tuple6 where
  addr : Nat
  port : Nat
deriving DecidableEq, Repr

/-- A dynamically typed translation-table key/value: the Go tables store
`interface{}` values holding either a `Tuple` or a `Tuple6`. -/
inductive TKey where
  | v4 : Tuple → TKey
  | v6 : Tuple6 → TKey
deriving DecidableEq, Repr

/-- A translation table for one protocol: extensional model of the
`sync.Map` from one side's tuple to the other side's tuple. -/
def Table := TKey → Option TKey

/-- `sync.Map.Store`: insert or replace the binding of `k`. -/
def tstore (t : Table) (k v : TKey) : Table :=
  fun x => if x = k then some v else t x

/-- `sync.Map.Delete`: remove the binding of `k`. -/
def terase (t : Table) (k : TKey) : Table :=
  fun x => if x = k then none else t x

/-- The empty translation table. -/
def temptyTable : Table := fun _ => none

/-- Pointwise update of the per-protocol family of translation tables. -/
def updTables (tt : Nat → Table) (proto : Nat) (t : Table) : Nat → Table :=
  fun p => if p = proto then t else tt p

/-- Key of a neighbor (ARP) cache: the Go `sync.Map` keys are dynamically
typed `IPv4Address` or `IPv6Address` values, so the family tag is part of
the key. -/
def ArpKey := Bool × Nat
deriving instance DecidableEq for ArpKey

/-- A neighbor cache: IP address to MAC address. -/
def ArpTable := ArpKey → Option Nat

/-- Store into a neighbor cache (`arpTable.Store`). -/
def astore (t : ArpTable) (k : ArpKey) (mac : Nat) : ArpTable :=
  fun x => if x = k then some mac else t x

/-- The empty neighbor cache. -/
def aemptyTable : ArpTable := fun _ => none

/-- Per-allocated-port metadata (`portMapEntry` of the source):
last-use time, TCP close-handshake counter, close-initiating side and the
static/permanent flag. -/
structure portMapEntry where
  lastused : Int
  finCount : Nat
  terminationDirection : Nat
  static : Bool
deriving DecidableEq, Repr

/-- The zero `portMapEntry{}` a deleted slot is reset to. -/
def zeroPortMapEntry : portMapEntry :=
  { lastused := 0, finCount := 0, terminationDirection := 0, static := false }

/-- An IPv4 subnet attachment: address and DHCP acquisition status. -/
structure ipv4Subnet where
  Addr : Nat
  addressAcquired : Bool
deriving DecidableEq, Repr

/-- An IPv6 subnet attachment: address, link-local, multicast and
link-local multicast addresses, and acquisition status. -/
structure ipv6Subnet where
  Addr : Nat
  llAddr : Nat
  multicastAddr : Nat
  llMulticastAddr : Nat
  addressAcquired : Bool
deriving DecidableEq, Repr

/-- One attachment point (`ipPort` of the source): subnets, per-protocol
translation tables, neighbor cache, per-family/protocol/port metadata map
and the host-redirect (KNI) flag. `kniPresent` stands for the source's
`KNIName != ""` test. The `opposite` back-reference is resolved
structurally through the owning `portPair`. -/
structure ipPort where
  Subnet : ipv4Subnet
  Subnet6 : ipv6Subnet
  translationTable : Nat → Table
  arpTable : ArpTable
  portmap : Bool → Nat → Nat → portMapEntry
  kniPresent : Bool

/-- A port pair (`portPair` of the source): its two sides plus the bounds
of the port-allocation pool. Modelled from the spec: the pool bounds
(`portStart ≤ p < portEnd`) stand for the "bounded per-protocol,
per-family pool"; the scan cursor (`lastport`) is left out, the modelled
selection policy is a sequential scan from `portStart` (the spec leaves
the selection policy open). -/
structure portPair where
  PublicPort : ipPort
  PrivatePort : ipPort
  portStart : Nat
  portEnd : Nat

/-- Protocol number of TCP (`types.TCPNumber`). -/
def TCPNumber : Nat := 6

/-- Protocol number of UDP (`types.UDPNumber`). -/
def UDPNumber : Nat := 17

/-- Protocol number of ICMP (`types.ICMPNumber`). -/
def ICMPNumber : Nat := 1

/-- TCP FIN flag bit (`types.TCPFlagFin`). -/
def TCPFlagFin : Nat := 1

/-- TCP RST flag bit (`types.TCPFlagRst`). -/
def TCPFlagRst : Nat := 4

/-- TCP ACK flag bit (`types.TCPFlagAck`). -/
def TCPFlagAck : Nat := 16

/-- Modelled from the spec: the two `terminationDirection` byte constants
(`pri2pub`, `pub2pri`) are declared outside `translation.go`; the tracker
only needs them to be distinct bytes exchanged by the `uint8` bitwise
complement. -/
def pri2pub : Nat := 0x0f

/-- Modelled from the spec: the public→private observation side, the
`uint8` complement of `pri2pub`. -/
def pub2pri : Nat := 0xf0

/-- Go's `^x` on `uint8`: bitwise complement of a byte. -/
def complement8 (d : Nat) : Nat := d ^^^ 255

/-- Modelled from the spec: `connectionTimeout`, the configured idle
timeout, declared outside `translation.go`; a fixed positive sample
configuration value. -/
def connectionTimeout : Int := 60

/-- Modelled from the spec: `portReuseSetLastusedTime`, the configured
reuse hold-down (`reuseHoldDown`) written into a freed slot's `lastused`
after a graceful TCP close; a fixed positive sample configuration
value. -/
def portReuseSetLastusedTime : Int := 10

/-- `packet.SwapBytesIPv4Addr`: byte swap of a 32-bit value (network ↔
host order). -/
def swapBytesIPv4Addr (a : Nat) : Nat :=
  (a % 256) * 2 ^ 24 + (a / 2 ^ 8 % 256) * 2 ^ 16 +
    (a / 2 ^ 16 % 256) * 2 ^ 8 + a / 2 ^ 24 % 256

/-- One parsed packet, as the entry points observe it. The fields record
the results of the external parsing and handling collaborators:
`isIP` is false for ARP/non-IP frames, for which `arpDir` is the decision
`parsePacketAndCheckARP` returns; `protocol`, `srcPort`, `dstPort` and the
three header flags are the results of `ParseAllKnownL4` (`protocol = 0`
means unsupported); `icmpDir` is what `handleICMP` returns for an ICMP
packet (`Dir.SEND` meaning "continue"); `dhcpHandled` is what
`handleDHCP`/`handleDHCPv6` report for a UDP packet; `etherSAddr` is the
Ethernet source MAC; `tcpFlags` is the TCP flag byte. -/
structure Packet where
  isIP : Bool
  isIPv6 : Bool
  srcAddr : Nat
  dstAddr : Nat
  etherSAddr : Nat
  protocol : Nat
  srcPort : Nat
  dstPort : Nat
  isTCP : Bool
  isUDP : Bool
  isICMP : Bool
  tcpFlags : Nat
  icmpDir : Dir
  dhcpHandled : Bool
  arpDir : Dir

/-- The ingress lookup key (source lines 89–100): destination address
(byte-swapped for IPv4) and destination port. -/
def ingressKey (pkt : Packet) : TKey :=
  if pkt.isIPv6 = true then TKey.v6 ⟨pkt.dstAddr, pkt.dstPort⟩
  else TKey.v4 ⟨swapBytesIPv4Addr pkt.dstAddr, pkt.dstPort⟩

/-- The egress lookup key (source lines 231–242): source address
(byte-swapped for IPv4) and source port. -/
def egressKey (pkt : Packet) : TKey :=
  if pkt.isIPv6 = true then TKey.v6 ⟨pkt.srcAddr, pkt.srcPort⟩
  else TKey.v4 ⟨swapBytesIPv4Addr pkt.srcAddr, pkt.srcPort⟩

/-- The public-side tuple owning a given port: the public subnet address
of the pair paired with the port number. This is the tuple
`allocateNewEgressConnection` publishes (source lines 38–50). -/
def publicKeyForPort (pp : portPair) (ipv6 : Bool) (port : Nat) : TKey :=
  if ipv6 = true then TKey.v6 ⟨pp.PublicPort.Subnet6.Addr, port⟩
  else TKey.v4 ⟨pp.PublicPort.Subnet.Addr, port⟩

/-- Result bundle of `getAddrFromTuple` (source lines 425–433). -/
structure AddrFromTuple where
  v4addr : Nat
  v6addr : Nat
  newPort : Nat
  zeroAddr : Bool
deriving DecidableEq, Repr

/-- `getAddrFromTuple` (source lines 425–433): project a dynamically
typed tuple into addresses, port and the zero-address sentinel test. The
Go type assertion panics on a family-mismatched value; that branch is
unreachable for family-consistent tables and modelled as a zero result. -/
def getAddrFromTuple (v : TKey) (ipv6 : Bool) : AddrFromTuple :=
  if ipv6 = true then
    match v with
    | TKey.v6 t => ⟨0, t.addr, t.port, decide (t.addr = 0)⟩
    | TKey.v4 _ => ⟨0, 0, 0, true⟩
  else
    match v with
    | TKey.v4 t => ⟨t.addr, 0, t.port, decide (t.addr = 0)⟩
    | TKey.v6 _ => ⟨0, 0, 0, true⟩

/-- Pointwise update of a per-family/protocol/port metadata map. -/
def updPortmap (pm : Bool → Nat → Nat → portMapEntry) (ipv6 : Bool)
    (proto port : Nat) (e : portMapEntry) : Bool → Nat → Nat → portMapEntry :=
  fun i pr pt => if i = ipv6 ∧ pr = proto ∧ pt = port then e else pm i pr pt

/-- Write one public-side `portMapEntry` (`getPublicPortPortmap(...)[port] = e`). -/
def setPublicPortmapEntry (pp : portPair) (ipv6 : Bool) (proto port : Nat)
    (e : portMapEntry) : portPair :=
  { pp with PublicPort :=
      { pp.PublicPort with portmap := updPortmap pp.PublicPort.portmap ipv6 proto port e } }

/-- Refresh the `lastused` field of one public-side slot
(`portmap[port].lastused = t`). -/
def setPublicPortmapLastused (pp : portPair) (ipv6 : Bool) (proto port : Nat)
    (t : Int) : portPair :=
  setPublicPortmapEntry pp ipv6 proto port
    { pp.PublicPort.portmap ipv6 proto port with lastused := t }

/-- Store one binding into the public-side translation table of a
protocol (`pp.PublicPort.translationTable[protocol].Store k v`). -/
def storePubTable (pp : portPair) (proto : Nat) (k v : TKey) : portPair :=
  let t := updTables pp.PublicPort.translationTable proto
    (tstore (pp.PublicPort.translationTable proto) k v)
  { pp with PublicPort := { pp.PublicPort with translationTable := t } }

/-- Store one binding into the private-side translation table of a
protocol (`pp.PrivatePort.translationTable[protocol].Store k v`). -/
def storePrivTable (pp : portPair) (proto : Nat) (k v : TKey) : portPair :=
  let t := updTables pp.PrivatePort.translationTable proto
    (tstore (pp.PrivatePort.translationTable proto) k v)
  { pp with PrivatePort := { pp.PrivatePort with translationTable := t } }

/-- Remove one binding from the public-side translation table of a
protocol (`pp.PublicPort.translationTable[protocol].Delete k`). -/
def erasePubTable (pp : portPair) (proto : Nat) (k : TKey) : portPair :=
  let t := updTables pp.PublicPort.translationTable proto
    (terase (pp.PublicPort.translationTable proto) k)
  { pp with PublicPort := { pp.PublicPort with translationTable := t } }

/-- Remove one binding from the private-side translation table of a
protocol (`pp.PrivatePort.translationTable[protocol].Delete k`). -/
def erasePrivTable (pp : portPair) (proto : Nat) (k : TKey) : portPair :=
  let t := updTables pp.PrivatePort.translationTable proto
    (terase (pp.PrivatePort.translationTable proto) k)
  { pp with PrivatePort := { pp.PrivatePort with translationTable := t } }

/-- Modelled from the spec: `deleteOldConnection` is declared outside
`translation.go`. Per the spec's delete operation it "removes both table
entries for the port and invalidates the Port-Map Entry (marks it free
for a fresh allocation)": the public-side key owning the port is looked
up, the pair of bindings is removed from the two tables, and the slot's
metadata is reset to the zero entry. -/
def deleteOldConnection (pp : portPair) (ipv6 : Bool) (protocol port : Nat) :
    portPair :=
  let pubKey := publicKeyForPort pp ipv6 port
  let pp1 :=
    match pp.PublicPort.translationTable protocol pubKey with
    | some privKey => erasePrivTable (erasePubTable pp protocol pubKey) protocol privKey
    | none => pp
  setPublicPortmapEntry pp1 ipv6 protocol port zeroPortMapEntry

/-- Modelled from the spec: a port is free for a fresh allocation iff it
is not "in use", where a port is in use iff its slot is `static` or
`now - lastUsed ≤ connectionTimeout`. -/
def portIsFree (e : portMapEntry) (now : Int) : Bool :=
  !e.static && decide (connectionTimeout < now - e.lastused)

/-- Modelled from the spec: scan of the bounded pool for a free port
(sequential scan from `portStart`; the spec leaves the selection policy
open). -/
def findFreePort (pp : portPair) (ipv6 : Bool) (protocol : Nat) (now : Int) :
    Option Nat :=
  (List.range' pp.portStart (pp.portEnd - pp.portStart)).find?
    (fun p => portIsFree (pp.PublicPort.portmap ipv6 protocol p) now)

/-- Modelled from the spec: `allocNewPort` is declared outside
`translation.go`. It selects an unused port from the bounded pool,
reclaiming the selected slot (removing any stale pair of table entries
the reused port still owns, as the spec's pairing invariant requires),
and reports exhaustion as an error (`none`), never silently retrying. -/
def allocNewPort (pp : portPair) (ipv6 : Bool) (protocol : Nat) (now : Int) :
    Option (Nat × portPair) :=
  match findFreePort pp ipv6 protocol now with
  | none => none
  | some p => some (p, deleteOldConnection pp ipv6 protocol p)

/-- `allocateNewEgressConnection` (source lines 26–65): allocate a port,
write a fresh slot (`lastused = now`, `finCount = 0`, no termination
side, non-static) and insert the paired tuples into both tables. On
allocation failure the error is propagated and the state unchanged. -/
def allocateNewEgressConnection (pp : portPair) (ipv6 : Bool) (protocol : Nat)
    (privEntry : TKey) (now : Int) : Option (Nat × Nat × Nat) × portPair :=
  match allocNewPort pp ipv6 protocol now with
  | none => (none, pp)
  | some (port, pp1) =>
      let v4addr := if ipv6 = true then 0 else pp1.PublicPort.Subnet.Addr
      let v6addr := if ipv6 = true then pp1.PublicPort.Subnet6.Addr else 0
      let pubEntry := publicKeyForPort pp1 ipv6 port
      let pp2 := setPublicPortmapEntry pp1 ipv6 protocol port
        { lastused := now, finCount := 0, terminationDirection := 0, static := false }
      let pp3 := storePubTable pp2 protocol pubEntry privEntry
      let pp4 := storePrivTable pp3 protocol privEntry pubEntry
      (some (v4addr, v6addr, port), pp4)

/-- `checkTCPTermination` (source lines 368–403): the TCP termination
tracker. FIN is checked first, then RST, then ACK, on the public-side
slot of the connection's port under the TCP protocol number. -/
def checkTCPTermination (pp : portPair) (ipv6 : Bool) (tcpFlags port : Nat)
    (dir : Nat) (now : Int) : portPair :=
  let pme := pp.PublicPort.portmap ipv6 TCPNumber port
  if tcpFlags &&& TCPFlagFin ≠ 0 then
    if pme.finCount = 0 then
      setPublicPortmapEntry pp ipv6 TCPNumber port
        { pme with finCount := 1, terminationDirection := dir }
    else if pme.finCount = 1 ∧ pme.terminationDirection = complement8 dir then
      setPublicPortmapEntry pp ipv6 TCPNumber port { pme with finCount := 2 }
    else pp
  else if tcpFlags &&& TCPFlagRst ≠ 0 then
    deleteOldConnection pp ipv6 TCPNumber port
  else if tcpFlags &&& TCPFlagAck ≠ 0 then
    if pme.finCount = 2 then
      setPublicPortmapLastused (deleteOldConnection pp ipv6 TCPNumber port)
        ipv6 TCPNumber port (now + portReuseSetLastusedTime)
    else pp
  else pp

/-- Opportunistic neighbor learning (source lines 132, 135, 299, 302):
store the packet's source IP address → source MAC into a side's neighbor
cache. -/
def learnSrcArp (port : ipPort) (pkt : Packet) : ipPort :=
  { port with arpTable := astore port.arpTable (pkt.isIPv6, pkt.srcAddr) pkt.etherSAddr }

/-- Neighbor learning on the public side of a pair. -/
def learnPubArp (pp : portPair) (pkt : Packet) : portPair :=
  { pp with PublicPort := learnSrcArp pp.PublicPort pkt }

/-- Neighbor learning on the private side of a pair. -/
def learnPrivArp (pp : portPair) (pkt : Packet) : portPair :=
  { pp with PrivatePort := learnSrcArp pp.PrivatePort pkt }

/-- Acquisition status of the relevant subnet of a side. -/
def sideAddressAcquired (port : ipPort) (ipv6 : Bool) : Bool :=
  if ipv6 = true then port.Subnet6.addressAcquired else port.Subnet.addressAcquired

/-- The egress "packet sent to us" test (source lines 269–278): the
destination is one of the private side's own identities. -/
def packetSentToUs (port : ipPort) (pkt : Packet) : Bool :=
  if pkt.isIPv6 = true then
    (port.Subnet6.Addr == pkt.dstAddr) || (port.Subnet6.llAddr == pkt.dstAddr) ||
      (port.Subnet6.multicastAddr == pkt.dstAddr) ||
      (port.Subnet6.llMulticastAddr == pkt.dstAddr)
  else port.Subnet.Addr == swapBytesIPv4Addr pkt.dstAddr

/-- `PublicToPrivateTranslation` (source lines 68–207): the ingress
(public→private) per-packet decision procedure. Returns the direction
decision and the post-state of the pair. -/
def PublicToPrivateTranslation (pp : portPair) (pkt : Packet) (now : Int) :
    Dir × portPair :=
  let port := pp.PublicPort
  if pkt.isIP ≠ true then (pkt.arpDir, pp)
  else if pkt.protocol = 0 then (Dir.DROP, pp)
  else
  let portNumber := pkt.dstPort
  let pub2priKey := ingressKey pkt
  if pkt.isICMP = true ∧ pkt.icmpDir ≠ Dir.SEND then (pkt.icmpDir, pp)
  else
  let ipv6 := pkt.isIPv6
  if pkt.isUDP = true ∧ pkt.dhcpHandled = true then (Dir.DROP, pp)
  else
  match port.translationTable pkt.protocol pub2priKey with
  | none =>
      let addressAcquired := sideAddressAcquired port ipv6
      let pp1 := learnPubArp pp pkt
      if port.kniPresent = true ∧ addressAcquired = true then (Dir.KNI, pp1)
      else (Dir.DROP, pp1)
  | some v =>
      let r := getAddrFromTuple v ipv6
      let pme := port.portmap ipv6 pkt.protocol portNumber
      if pme.static = true ∨ now - pme.lastused ≤ connectionTimeout then
        let pp1 := setPublicPortmapLastused pp ipv6 pkt.protocol portNumber now
        if r.zeroAddr ≠ true then
          let pp2 :=
            if pkt.isTCP = true ∧ pme.static ≠ true then
              checkTCPTermination pp1 ipv6 pkt.tcpFlags portNumber pub2pri now
            else pp1
          match pp2.PrivatePort.arpTable
              (if ipv6 = true then (true, r.v6addr) else (false, r.v4addr)) with
          | none => (Dir.DROP, pp2)
          | some _mac => (Dir.SEND, pp2)
        else (Dir.KNI, pp1)
      else
        (Dir.DROP, deleteOldConnection pp ipv6 pkt.protocol portNumber)

/-- Tail of the egress procedure after the translated tuple is known
(source lines 327–364): optional termination tracking, neighbor
resolution on the opposite (public) side and the forwarding decision.
The translated addresses are used only to rewrite the packet headers, so
they do not appear here. -/
def egressForward (pp1 : portPair) (pkt : Packet) (ipv6 : Bool)
    (newPort : Nat) (now : Int) : Dir × portPair :=
  let pp2 :=
    if pkt.isTCP = true ∧ (pp1.PublicPort.portmap ipv6 pkt.protocol newPort).static ≠ true then
      checkTCPTermination pp1 ipv6 pkt.tcpFlags newPort pri2pub now
    else pp1
  match pp2.PublicPort.arpTable
      (if ipv6 = true then (true, pkt.dstAddr) else (false, swapBytesIPv4Addr pkt.dstAddr)) with
  | none => (Dir.DROP, pp2)
  | some _mac => (Dir.SEND, pp2)

/-- `PrivateToPublicTranslation` (source lines 210–365): the egress
(private→public) per-packet decision procedure. Returns the direction
decision and the post-state of the pair. -/
def PrivateToPublicTranslation (pp : portPair) (pkt : Packet) (now : Int) :
    Dir × portPair :=
  let port := pp.PrivatePort
  if pkt.isIP ≠ true then (pkt.arpDir, pp)
  else if pkt.protocol = 0 then (Dir.DROP, pp)
  else
  let pri2pubKey := egressKey pkt
  if pkt.isICMP = true ∧ pkt.icmpDir ≠ Dir.SEND then (pkt.icmpDir, pp)
  else
  let ipv6 := pkt.isIPv6
  if pkt.isUDP = true ∧ pkt.dhcpHandled = true then (Dir.DROP, pp)
  else
  let addressAcquired := sideAddressAcquired port ipv6
  if port.kniPresent = true ∧ addressAcquired = true ∧ packetSentToUs port pkt = true then
    (Dir.KNI, pp)
  else
  match port.translationTable pkt.protocol pri2pubKey with
  | none =>
      let pp0 := learnPrivArp pp pkt
      let publicAddressAcquired := sideAddressAcquired pp.PublicPort ipv6
      if addressAcquired ≠ true ∨ publicAddressAcquired ≠ true then (Dir.DROP, pp0)
      else
        match allocateNewEgressConnection pp0 ipv6 pkt.protocol pri2pubKey now with
        | (none, pp1) => (Dir.DROP, pp1)
        | (some (_v4addr, _v6addr, newPort), pp1) =>
            egressForward pp1 pkt ipv6 newPort now
  | some v =>
      let r := getAddrFromTuple v ipv6
      let pp1 := setPublicPortmapLastused pp ipv6 pkt.protocol r.newPort now
      if r.zeroAddr ≠ true then
        egressForward pp1 pkt ipv6 r.newPort now
      else
        (Dir.KNI, pp1)

/-! ### Concrete states and packets used by witnesses and counterexamples -/

/-- A metadata map with every slot zeroed. -/
def emptyPortmap : Bool → Nat → Nat → portMapEntry := fun _ _ _ => zeroPortMapEntry

/-- A public attachment point with acquired addresses, empty tables and a
KNI interface. -/
def basePublicPort : ipPort where
  Subnet := { Addr := 9, addressAcquired := true }
  Subnet6 := { Addr := 90, llAddr := 91, multicastAddr := 92,
               llMulticastAddr := 93, addressAcquired := true }
  translationTable := fun _ => temptyTable
  arpTable := aemptyTable
  portmap := emptyPortmap
  kniPresent := true

/-- A private attachment point with acquired addresses and empty tables. -/
def basePrivatePort : ipPort :=
  { basePublicPort with
    Subnet := { Addr := 3, addressAcquired := true },
    Subnet6 := { Addr := 30, llAddr := 31, multicastAddr := 32,
                 llMulticastAddr := 33, addressAcquired := true } }

/-- A port pair with empty state and a three-port pool. -/
def basePair : portPair where
  PublicPort := basePublicPort
  PrivatePort := basePrivatePort
  portStart := 1024
  portEnd := 1027

/-- Sample private tuple: host 3.0.0.5 (host order 5), port 40000. -/
def privKeySample : TKey := TKey.v4 ⟨5, 40000⟩

/-- Sample public tuple owning port 1024 on the public address. -/
def pubKeySample : TKey := TKey.v4 ⟨9, 1024⟩

/-- `basePair` with the sample IPv4 mapping installed for a protocol and
its public slot metadata set to `e`. -/
def pairWithMapping (proto : Nat) (e : portMapEntry) : portPair :=
  let pp1 := storePubTable basePair proto pubKeySample privKeySample
  let pp2 := storePrivTable pp1 proto privKeySample pubKeySample
  let pp3 := setPublicPortmapEntry pp2 false proto 1024 e
  { pp3 with
    PublicPort := { pp3.PublicPort with arpTable := astore pp3.PublicPort.arpTable (false, 8) 88 },
    PrivatePort := { pp3.PrivatePort with arpTable := astore pp3.PrivatePort.arpTable (false, 5) 55 } }

/-- A plain IPv4 UDP egress packet of the sample flow (source 5:40000,
destination 8:80, addresses in network byte order on the wire). -/
def udpEgressPkt : Packet where
  isIP := true
  isIPv6 := false
  srcAddr := swapBytesIPv4Addr 5
  dstAddr := swapBytesIPv4Addr 8
  etherSAddr := 77
  protocol := UDPNumber
  srcPort := 40000
  dstPort := 80
  isTCP := false
  isUDP := false
  isICMP := false
  tcpFlags := 0
  icmpDir := Dir.SEND
  dhcpHandled := false
  arpDir := Dir.DROP

/-- A plain IPv4 UDP ingress packet of the sample flow (destination
9:1024 in network byte order). -/
def udpIngressPkt : Packet where
  isIP := true
  isIPv6 := false
  srcAddr := swapBytesIPv4Addr 8
  dstAddr := swapBytesIPv4Addr 9
  etherSAddr := 88
  protocol := UDPNumber
  srcPort := 80
  dstPort := 1024
  isTCP := false
  isUDP := false
  isICMP := false
  tcpFlags := 0
  icmpDir := Dir.SEND
  dhcpHandled := false
  arpDir := Dir.DROP


/-! ### Basic lemmas about the state operations -/

@[simp] theorem tstore_self (t : Table) (k v : TKey) : tstore t k v k = some v := by
  simp [tstore]

theorem tstore_ne (t : Table) (k v x : TKey) (h : x ≠ k) : tstore t k v x = t x := by
  simp [tstore, h]

@[simp] theorem terase_self (t : Table) (k : TKey) : terase t k k = none := by
  simp [terase]

theorem terase_ne (t : Table) (k x : TKey) (h : x ≠ k) : terase t k x = t x := by
  simp [terase, h]

@[simp] theorem setPublicPortmapEntry_pub_tables (pp : portPair) (i : Bool) (pr pt : Nat)
    (e : portMapEntry) :
    (setPublicPortmapEntry pp i pr pt e).PublicPort.translationTable =
      pp.PublicPort.translationTable := rfl

@[simp] theorem setPublicPortmapEntry_PrivatePort (pp : portPair) (i : Bool) (pr pt : Nat)
    (e : portMapEntry) :
    (setPublicPortmapEntry pp i pr pt e).PrivatePort = pp.PrivatePort := rfl

@[simp] theorem setPublicPortmapEntry_pub_Subnet (pp : portPair) (i : Bool) (pr pt : Nat)
    (e : portMapEntry) :
    (setPublicPortmapEntry pp i pr pt e).PublicPort.Subnet = pp.PublicPort.Subnet := rfl

@[simp] theorem setPublicPortmapEntry_pub_Subnet6 (pp : portPair) (i : Bool) (pr pt : Nat)
    (e : portMapEntry) :
    (setPublicPortmapEntry pp i pr pt e).PublicPort.Subnet6 = pp.PublicPort.Subnet6 := rfl

@[simp] theorem setPublicPortmapEntry_pub_arpTable (pp : portPair) (i : Bool) (pr pt : Nat)
    (e : portMapEntry) :
    (setPublicPortmapEntry pp i pr pt e).PublicPort.arpTable = pp.PublicPort.arpTable := rfl

@[simp] theorem setPublicPortmapEntry_portmap (pp : portPair) (i : Bool) (pr pt : Nat)
    (e : portMapEntry) :
    (setPublicPortmapEntry pp i pr pt e).PublicPort.portmap =
      updPortmap pp.PublicPort.portmap i pr pt e := rfl

@[simp] theorem updPortmap_same (pm : Bool → Nat → Nat → portMapEntry) (i : Bool)
    (pr pt : Nat) (e : portMapEntry) : updPortmap pm i pr pt e i pr pt = e := by
  simp [updPortmap]

theorem updPortmap_other (pm : Bool → Nat → Nat → portMapEntry) (i : Bool) (pr pt : Nat)
    (e : portMapEntry) (j : Bool) (qr qt : Nat) (h : ¬(j = i ∧ qr = pr ∧ qt = pt)) :
    updPortmap pm i pr pt e j qr qt = pm j qr qt := by
  simp [updPortmap, h]

@[simp] theorem updTables_same (tt : Nat → Table) (proto : Nat) (t : Table) :
    updTables tt proto t proto = t := by
  simp [updTables]

theorem updTables_other (tt : Nat → Table) (proto : Nat) (t : Table) (p : Nat)
    (h : p ≠ proto) : updTables tt proto t p = tt p := by
  simp [updTables, h]

@[simp] theorem storePubTable_priv (pp : portPair) (proto : Nat) (k v : TKey) :
    (storePubTable pp proto k v).PrivatePort = pp.PrivatePort := rfl

@[simp] theorem storePubTable_pub_tables (pp : portPair) (proto : Nat) (k v : TKey) :
    (storePubTable pp proto k v).PublicPort.translationTable =
      updTables pp.PublicPort.translationTable proto
        (tstore (pp.PublicPort.translationTable proto) k v) := rfl

@[simp] theorem storePubTable_pub_Subnet (pp : portPair) (proto : Nat) (k v : TKey) :
    (storePubTable pp proto k v).PublicPort.Subnet = pp.PublicPort.Subnet := rfl

@[simp] theorem storePubTable_pub_Subnet6 (pp : portPair) (proto : Nat) (k v : TKey) :
    (storePubTable pp proto k v).PublicPort.Subnet6 = pp.PublicPort.Subnet6 := rfl

@[simp] theorem storePubTable_pub_portmap (pp : portPair) (proto : Nat) (k v : TKey) :
    (storePubTable pp proto k v).PublicPort.portmap = pp.PublicPort.portmap := rfl

@[simp] theorem storePubTable_pub_arpTable (pp : portPair) (proto : Nat) (k v : TKey) :
    (storePubTable pp proto k v).PublicPort.arpTable = pp.PublicPort.arpTable := rfl

@[simp] theorem storePrivTable_pub (pp : portPair) (proto : Nat) (k v : TKey) :
    (storePrivTable pp proto k v).PublicPort = pp.PublicPort := rfl

@[simp] theorem storePrivTable_priv_tables (pp : portPair) (proto : Nat) (k v : TKey) :
    (storePrivTable pp proto k v).PrivatePort.translationTable =
      updTables pp.PrivatePort.translationTable proto
        (tstore (pp.PrivatePort.translationTable proto) k v) := rfl

@[simp] theorem storePrivTable_priv_arpTable (pp : portPair) (proto : Nat) (k v : TKey) :
    (storePrivTable pp proto k v).PrivatePort.arpTable = pp.PrivatePort.arpTable := rfl

/-! ### The pairing invariant -/

/-- Pairing of one pair of per-protocol tables: a binding `a ↦ b` is in
the public→private table iff `b ↦ a` is in the private→public table. -/
def Paired1 (t u : Table) : Prop :=
  ∀ a b, t a = some b ↔ u b = some a

/-- The spec's pairing invariant for the whole pair state: for every
protocol, the public→private and private→public tables are paired. -/
def Paired (pp : portPair) : Prop :=
  ∀ proto, Paired1 (pp.PublicPort.translationTable proto)
    (pp.PrivatePort.translationTable proto)

theorem Paired1.erase {t u : Table} (h : Paired1 t u) {k kv : TKey}
    (hk : t k = some kv) : Paired1 (terase t k) (terase u kv) := by
  intro a b
  unfold terase
  by_cases ha : a = k
  · subst ha
    simp only [if_pos rfl]
    constructor
    · intro hfalse; cases hfalse
    · intro hb
      by_cases hb' : b = kv
      · rw [if_pos hb'] at hb; cases hb
      · rw [if_neg hb'] at hb
        have : t a = some b := (h a b).mpr hb
        rw [hk] at this
        cases this
        exact absurd rfl hb'
  · rw [if_neg ha]
    by_cases hb : b = kv
    · subst hb
      simp only [if_pos rfl]
      constructor
      · intro hta
        have h1 : u b = some a := (h a b).mp hta
        have h2 : u b = some k := (h k b).mp hk
        rw [h1] at h2
        cases h2
        exact absurd rfl ha
      · intro hfalse; cases hfalse
    · rw [if_neg hb]
      exact h a b

theorem Paired1.store {t u : Table} (h : Paired1 t u) {k kv : TKey}
    (hk : t k = none) (hv : u kv = none) :
    Paired1 (tstore t k kv) (tstore u kv k) := by
  intro a b
  unfold tstore
  by_cases ha : a = k
  · subst ha
    simp only [if_pos rfl]
    by_cases hb : b = kv
    · subst hb
      simp
    · rw [if_neg hb]
      constructor
      · intro hsome
        cases hsome
        exact absurd rfl hb
      · intro hub
        have : t a = some b := (h a b).mpr hub
        rw [hk] at this
        cases this
  · rw [if_neg ha]
    by_cases hb : b = kv
    · subst hb
      simp only [if_pos rfl]
      constructor
      · intro hta
        have : u b = some a := (h a b).mp hta
        rw [hv] at this
        cases this
      · intro hsome
        cases hsome
        exact absurd rfl ha
    · rw [if_neg hb]
      exact h a b

/-- `deleteOldConnection` unfolded when the deleted port owns no public
binding: only the slot metadata is reset. -/
theorem deleteOldConnection_eq_of_none {pp : portPair} {i : Bool} {pr pt : Nat}
    (hk : pp.PublicPort.translationTable pr (publicKeyForPort pp i pt) = none) :
    deleteOldConnection pp i pr pt = setPublicPortmapEntry pp i pr pt zeroPortMapEntry := by
  simp only [deleteOldConnection, hk]

/-- `deleteOldConnection` unfolded when the deleted port owns a public
binding: both table entries are removed and the slot metadata reset. -/
theorem deleteOldConnection_eq_of_some {pp : portPair} {i : Bool} {pr pt : Nat}
    {privKey : TKey}
    (hk : pp.PublicPort.translationTable pr (publicKeyForPort pp i pt) = some privKey) :
    deleteOldConnection pp i pr pt =
      setPublicPortmapEntry
        (erasePrivTable (erasePubTable pp pr (publicKeyForPort pp i pt)) pr privKey)
        i pr pt zeroPortMapEntry := by
  simp only [deleteOldConnection, hk]

@[simp] theorem erasePubTable_priv (pp : portPair) (proto : Nat) (k : TKey) :
    (erasePubTable pp proto k).PrivatePort = pp.PrivatePort := rfl

@[simp] theorem erasePubTable_pub_tables (pp : portPair) (proto : Nat) (k : TKey) :
    (erasePubTable pp proto k).PublicPort.translationTable =
      updTables pp.PublicPort.translationTable proto
        (terase (pp.PublicPort.translationTable proto) k) := rfl

@[simp] theorem erasePubTable_pub_Subnet (pp : portPair) (proto : Nat) (k : TKey) :
    (erasePubTable pp proto k).PublicPort.Subnet = pp.PublicPort.Subnet := rfl

@[simp] theorem erasePubTable_pub_Subnet6 (pp : portPair) (proto : Nat) (k : TKey) :
    (erasePubTable pp proto k).PublicPort.Subnet6 = pp.PublicPort.Subnet6 := rfl

@[simp] theorem erasePubTable_pub_portmap (pp : portPair) (proto : Nat) (k : TKey) :
    (erasePubTable pp proto k).PublicPort.portmap = pp.PublicPort.portmap := rfl

@[simp] theorem erasePubTable_pub_arpTable (pp : portPair) (proto : Nat) (k : TKey) :
    (erasePubTable pp proto k).PublicPort.arpTable = pp.PublicPort.arpTable := rfl

@[simp] theorem erasePrivTable_pub (pp : portPair) (proto : Nat) (k : TKey) :
    (erasePrivTable pp proto k).PublicPort = pp.PublicPort := rfl

@[simp] theorem erasePrivTable_priv_tables (pp : portPair) (proto : Nat) (k : TKey) :
    (erasePrivTable pp proto k).PrivatePort.translationTable =
      updTables pp.PrivatePort.translationTable proto
        (terase (pp.PrivatePort.translationTable proto) k) := rfl

@[simp] theorem erasePrivTable_priv_arpTable (pp : portPair) (proto : Nat) (k : TKey) :
    (erasePrivTable pp proto k).PrivatePort.arpTable = pp.PrivatePort.arpTable := rfl

theorem deleteOldConnection_pub_Subnet (pp : portPair) (i : Bool) (pr pt : Nat) :
    (deleteOldConnection pp i pr pt).PublicPort.Subnet = pp.PublicPort.Subnet := by
  cases hk : pp.PublicPort.translationTable pr (publicKeyForPort pp i pt) with
  | none => rw [deleteOldConnection_eq_of_none hk]; simp
  | some privKey => rw [deleteOldConnection_eq_of_some hk]; simp

theorem deleteOldConnection_pub_Subnet6 (pp : portPair) (i : Bool) (pr pt : Nat) :
    (deleteOldConnection pp i pr pt).PublicPort.Subnet6 = pp.PublicPort.Subnet6 := by
  cases hk : pp.PublicPort.translationTable pr (publicKeyForPort pp i pt) with
  | none => rw [deleteOldConnection_eq_of_none hk]; simp
  | some privKey => rw [deleteOldConnection_eq_of_some hk]; simp

/-- Deleting a connection does not change which public tuple owns a
port. -/
theorem publicKeyForPort_deleteOldConnection (pp : portPair) (i : Bool) (pr pt : Nat)
    (j : Bool) (q : Nat) :
    publicKeyForPort (deleteOldConnection pp i pr pt) j q = publicKeyForPort pp j q := by
  unfold publicKeyForPort
  rw [deleteOldConnection_pub_Subnet, deleteOldConnection_pub_Subnet6]

/-- After `deleteOldConnection`, the deleted port's public tuple is no
longer a key of the public→private table. -/
theorem deleteOldConnection_pub_lookup_self (pp : portPair) (i : Bool) (pr pt : Nat) :
    (deleteOldConnection pp i pr pt).PublicPort.translationTable pr
      (publicKeyForPort pp i pt) = none := by
  cases hk : pp.PublicPort.translationTable pr (publicKeyForPort pp i pt) with
  | none => rw [deleteOldConnection_eq_of_none hk]; simpa using hk
  | some privKey =>
      rw [deleteOldConnection_eq_of_some hk]
      simp

/-- `deleteOldConnection` only removes private-side bindings: an absent
key stays absent. -/
theorem deleteOldConnection_priv_none {pp : portPair} (i : Bool) (pr pt : Nat)
    {k : TKey} (hn : pp.PrivatePort.translationTable pr k = none) :
    (deleteOldConnection pp i pr pt).PrivatePort.translationTable pr k = none := by
  cases hk : pp.PublicPort.translationTable pr (publicKeyForPort pp i pt) with
  | none => rw [deleteOldConnection_eq_of_none hk]; simpa using hn
  | some privKey =>
      rw [deleteOldConnection_eq_of_some hk]
      simp only [setPublicPortmapEntry_PrivatePort, erasePrivTable_priv_tables,
        erasePubTable_priv, updTables_same]
      unfold terase
      split
      · rfl
      · exact hn

theorem paired_setPublicPortmapEntry {pp : portPair} {i : Bool} {pr pt : Nat}
    {e : portMapEntry} (h : Paired pp) : Paired (setPublicPortmapEntry pp i pr pt e) := h

theorem paired_deleteOldConnection {pp : portPair} (i : Bool) (pr pt : Nat)
    (h : Paired pp) : Paired (deleteOldConnection pp i pr pt) := by
  cases hk : pp.PublicPort.translationTable pr (publicKeyForPort pp i pt) with
  | none => rw [deleteOldConnection_eq_of_none hk]; exact h
  | some privKey =>
      rw [deleteOldConnection_eq_of_some hk]
      intro proto
      simp only [setPublicPortmapEntry_pub_tables, setPublicPortmapEntry_PrivatePort,
        erasePrivTable_pub, erasePrivTable_priv_tables, erasePubTable_pub_tables,
        erasePubTable_priv]
      by_cases hp : proto = pr
      · subst hp
        simp only [updTables_same]
        exact (h proto).erase hk
      · rw [updTables_other _ _ _ _ hp, updTables_other _ _ _ _ hp]
        exact h proto

theorem paired_checkTCPTermination {pp : portPair} (i : Bool) (flags pt dir : Nat)
    (now : Int) (h : Paired pp) : Paired (checkTCPTermination pp i flags pt dir now) := by
  simp only [checkTCPTermination]
  split
  · split
    · exact h
    · split
      · exact h
      · exact h
  · split
    · exact paired_deleteOldConnection _ _ _ h
    · split
      · split
        · exact paired_setPublicPortmapEntry (paired_deleteOldConnection _ _ _ h)
        · exact h
      · exact h

theorem paired_allocateNewEgressConnection (pp : portPair) (i : Bool) (pr : Nat)
    (privEntry : TKey) (now : Int) (h : Paired pp)
    (hmiss : pp.PrivatePort.translationTable pr privEntry = none) :
    Paired (allocateNewEgressConnection pp i pr privEntry now).2 := by
  unfold allocateNewEgressConnection allocNewPort
  cases hf : findFreePort pp i pr now with
  | none => exact h
  | some p =>
      have hdel : Paired (deleteOldConnection pp i pr p) :=
        paired_deleteOldConnection i pr p h
      intro proto
      simp only [storePrivTable_priv_tables, storePrivTable_pub, storePubTable_pub_tables,
        storePubTable_priv, setPublicPortmapEntry_pub_tables, setPublicPortmapEntry_PrivatePort]
      by_cases hp : proto = pr
      · subst hp
        simp only [updTables_same]
        apply Paired1.store (hdel proto)
        · rw [publicKeyForPort_deleteOldConnection]
          exact deleteOldConnection_pub_lookup_self pp i proto p
        · exact deleteOldConnection_priv_none i proto p hmiss
      · rw [updTables_other _ _ _ _ hp, updTables_other _ _ _ _ hp]
        exact hdel proto

@[simp] theorem learnPubArp_pub_tables (pp : portPair) (pkt : Packet) :
    (learnPubArp pp pkt).PublicPort.translationTable =
      pp.PublicPort.translationTable := rfl

@[simp] theorem learnPubArp_priv (pp : portPair) (pkt : Packet) :
    (learnPubArp pp pkt).PrivatePort = pp.PrivatePort := rfl

@[simp] theorem learnPrivArp_pub (pp : portPair) (pkt : Packet) :
    (learnPrivArp pp pkt).PublicPort = pp.PublicPort := rfl

@[simp] theorem learnPrivArp_priv_tables (pp : portPair) (pkt : Packet) :
    (learnPrivArp pp pkt).PrivatePort.translationTable =
      pp.PrivatePort.translationTable := rfl

@[simp] theorem learnPrivArp_priv_arpTable (pp : portPair) (pkt : Packet) :
    (learnPrivArp pp pkt).PrivatePort.arpTable =
      astore pp.PrivatePort.arpTable (pkt.isIPv6, pkt.srcAddr) pkt.etherSAddr := rfl

@[simp] theorem learnPubArp_pub_arpTable (pp : portPair) (pkt : Packet) :
    (learnPubArp pp pkt).PublicPort.arpTable =
      astore pp.PublicPort.arpTable (pkt.isIPv6, pkt.srcAddr) pkt.etherSAddr := rfl

theorem paired_egressForward {pp1 : portPair} (pkt : Packet) (i : Bool)
    (newPort : Nat) (now : Int) (h : Paired pp1) :
    Paired (egressForward pp1 pkt i newPort now).2 := by
  simp only [egressForward]
  split <;> split <;>
    first
      | exact h
      | exact paired_checkTCPTermination _ _ _ _ _ h

theorem paired_PublicToPrivateTranslation (pp : portPair) (pkt : Packet) (now : Int)
    (h : Paired pp) : Paired (PublicToPrivateTranslation pp pkt now).2 := by
  simp only [PublicToPrivateTranslation]
  split
  · exact h
  split
  · exact h
  split
  · exact h
  split
  · exact h
  split
  · -- lookup miss: only the neighbor cache changes
    split
    · exact h
    · exact h
  -- lookup hit
  split
  · -- mapping fresh or static
    split
    · -- non-zero translated address: arp match and optional TCP tracking
      split <;> split <;>
        first
          | exact h
          | exact paired_checkTCPTermination _ _ _ _ _ h
    · exact h
  · -- mapping stale: deleted
    exact paired_deleteOldConnection _ _ _ h

theorem paired_PrivateToPublicTranslation (pp : portPair) (pkt : Packet) (now : Int)
    (h : Paired pp) : Paired (PrivateToPublicTranslation pp pkt now).2 := by
  simp only [PrivateToPublicTranslation]
  split
  · exact h
  split
  · exact h
  split
  · exact h
  split
  · exact h
  split
  · exact h
  split
  · -- lookup miss: neighbor cache learning, then allocation
    rename_i hmiss
    split
    · exact h
    split
    · rename_i pp1 heq
      have hp := paired_allocateNewEgressConnection (learnPrivArp pp pkt)
        pkt.isIPv6 pkt.protocol (egressKey pkt) now h hmiss
      rw [heq] at hp
      exact hp
    · rename_i v4a v6a newPort pp1 heq
      have hp := paired_allocateNewEgressConnection (learnPrivArp pp pkt)
        pkt.isIPv6 pkt.protocol (egressKey pkt) now h hmiss
      rw [heq] at hp
      exact paired_egressForward pkt pkt.isIPv6 newPort now hp
  -- lookup hit
  split
  · exact paired_egressForward pkt pkt.isIPv6 _ now h
  · exact h

-- Concrete evaluation checks of the embedding.
example : (PublicToPrivateTranslation basePair udpIngressPkt 10).1 = Dir.KNI := by decide
example :
    (PublicToPrivateTranslation (pairWithMapping UDPNumber ⟨0, 0, 0, false⟩) udpIngressPkt 10).1 =
      Dir.SEND := by decide
example :
    (PublicToPrivateTranslation (pairWithMapping UDPNumber ⟨0, 0, 0, false⟩) udpIngressPkt 100).1 =
      Dir.DROP := by decide
example :
    (PrivateToPublicTranslation (pairWithMapping UDPNumber ⟨0, 0, 0, false⟩) udpEgressPkt 100).1 =
      Dir.SEND := by decide
/-- `basePair` with the external host's MAC known on the public side. -/
def basePairArp : portPair :=
  { basePair with PublicPort :=
      { basePublicPort with arpTable := astore aemptyTable (false, 8) 88 } }

example : (PrivateToPublicTranslation basePair udpEgressPkt 100).1 = Dir.DROP := by decide
example : (PrivateToPublicTranslation basePairArp udpEgressPkt 100).1 = Dir.SEND := by decide
example :
    ((PrivateToPublicTranslation basePairArp udpEgressPkt 100).2.PrivatePort.translationTable
      UDPNumber privKeySample) = some pubKeySample := by decide
example :
    ((PrivateToPublicTranslation basePairArp udpEgressPkt 100).2.PublicPort.translationTable
      UDPNumber pubKeySample) = some privKeySample := by decide

/-! ### Tracker/deletion step lemmas -/

@[simp] theorem astore_self (t : ArpTable) (k : ArpKey) (mac : Nat) :
    astore t k mac k = some mac := by
  simp [astore]

@[simp] theorem setPublicPortmapEntry_portmap_same (pp : portPair) (i : Bool)
    (pr pt : Nat) (e : portMapEntry) :
    (setPublicPortmapEntry pp i pr pt e).PublicPort.portmap i pr pt = e := by
  simp

theorem publicKeyForPort_setPublicPortmapEntry (pp : portPair) (i : Bool) (pr pt : Nat)
    (e : portMapEntry) (j : Bool) (q : Nat) :
    publicKeyForPort (setPublicPortmapEntry pp i pr pt e) j q = publicKeyForPort pp j q := rfl

theorem complement8_pub2pri : complement8 pub2pri = pri2pub := by decide

theorem complement8_pri2pub : complement8 pri2pub = pub2pri := by decide

/-- After `deleteOldConnection`, the slot metadata of the deleted port is
the zero entry. -/
theorem deleteOldConnection_portmap_self (pp : portPair) (i : Bool) (pr pt : Nat) :
    (deleteOldConnection pp i pr pt).PublicPort.portmap i pr pt = zeroPortMapEntry := by
  cases hk : pp.PublicPort.translationTable pr (publicKeyForPort pp i pt) with
  | none => rw [deleteOldConnection_eq_of_none hk]; simp
  | some privKey => rw [deleteOldConnection_eq_of_some hk]; simp

/-- After `deleteOldConnection`, the paired private tuple of the deleted
binding is no longer a key of the private→public table. -/
theorem deleteOldConnection_priv_of_some {pp : portPair} {i : Bool} {pr pt : Nat}
    {privKey : TKey}
    (hk : pp.PublicPort.translationTable pr (publicKeyForPort pp i pt) = some privKey) :
    (deleteOldConnection pp i pr pt).PrivatePort.translationTable pr privKey = none := by
  rw [deleteOldConnection_eq_of_some hk]
  simp

theorem deleteOldConnection_priv_arpTable (pp : portPair) (i : Bool) (pr pt : Nat) :
    (deleteOldConnection pp i pr pt).PrivatePort.arpTable = pp.PrivatePort.arpTable := by
  cases hk : pp.PublicPort.translationTable pr (publicKeyForPort pp i pt) with
  | none => rw [deleteOldConnection_eq_of_none hk]; rfl
  | some privKey => rw [deleteOldConnection_eq_of_some hk]; simp

/-- The RST branch of the tracker (source lines 382–386): with FIN clear
and RST set, the connection is deleted immediately. -/
theorem checkTCPTermination_rst (pp : portPair) (i : Bool) (flags pt dir : Nat)
    (now : Int) (hnofin : flags &&& TCPFlagFin = 0) (hrst : flags &&& TCPFlagRst ≠ 0) :
    checkTCPTermination pp i flags pt dir now = deleteOldConnection pp i TCPNumber pt := by
  simp [checkTCPTermination, hnofin, hrst]

/-- The first-FIN branch of the tracker (source lines 374–376). -/
theorem checkTCPTermination_fin_zero (pp : portPair) (i : Bool) (flags pt dir : Nat)
    (now : Int) (hfin : flags &&& TCPFlagFin ≠ 0)
    (h0 : (pp.PublicPort.portmap i TCPNumber pt).finCount = 0) :
    checkTCPTermination pp i flags pt dir now =
      setPublicPortmapEntry pp i TCPNumber pt
        { pp.PublicPort.portmap i TCPNumber pt with
          finCount := 1, terminationDirection := dir } := by
  simp [checkTCPTermination, hfin, h0]

/-- The second-FIN branch of the tracker (source lines 377–379): a FIN
from the side opposite to the recorded one advances the counter to 2. -/
theorem checkTCPTermination_fin_advance (pp : portPair) (i : Bool) (flags pt dir : Nat)
    (now : Int) (hfin : flags &&& TCPFlagFin ≠ 0)
    (h1 : (pp.PublicPort.portmap i TCPNumber pt).finCount = 1)
    (hterm : (pp.PublicPort.portmap i TCPNumber pt).terminationDirection = complement8 dir) :
    checkTCPTermination pp i flags pt dir now =
      setPublicPortmapEntry pp i TCPNumber pt
        { pp.PublicPort.portmap i TCPNumber pt with finCount := 2 } := by
  simp [checkTCPTermination, hfin, h1, hterm]

/-- A second FIN from the same side does not advance the counter
(source lines 374–379, neither branch applies). -/
theorem checkTCPTermination_fin_stall (pp : portPair) (i : Bool) (flags pt dir : Nat)
    (now : Int) (hfin : flags &&& TCPFlagFin ≠ 0)
    (h1 : (pp.PublicPort.portmap i TCPNumber pt).finCount = 1)
    (hterm : (pp.PublicPort.portmap i TCPNumber pt).terminationDirection ≠ complement8 dir) :
    checkTCPTermination pp i flags pt dir now = pp := by
  simp [checkTCPTermination, hfin, h1, hterm]

/-- A FIN seen when both FINs are already recorded changes nothing
(source lines 374–379, neither branch applies at `finCount = 2`). -/
theorem checkTCPTermination_fin_done (pp : portPair) (i : Bool) (flags pt dir : Nat)
    (now : Int) (hfin : flags &&& TCPFlagFin ≠ 0)
    (h2 : (pp.PublicPort.portmap i TCPNumber pt).finCount = 2) :
    checkTCPTermination pp i flags pt dir now = pp := by
  simp [checkTCPTermination, hfin, h2]

/-- The final-ACK branch of the tracker (source lines 387–401): with FIN
and RST clear, ACK set and both FINs recorded, the connection is deleted
and the freed slot's `lastused` set to `now + portReuseSetLastusedTime`. -/
theorem checkTCPTermination_ack_final (pp : portPair) (i : Bool) (flags pt dir : Nat)
    (now : Int) (hnofin : flags &&& TCPFlagFin = 0) (hnorst : flags &&& TCPFlagRst = 0)
    (hack : flags &&& TCPFlagAck ≠ 0)
    (h2 : (pp.PublicPort.portmap i TCPNumber pt).finCount = 2) :
    checkTCPTermination pp i flags pt dir now =
      setPublicPortmapLastused (deleteOldConnection pp i TCPNumber pt) i TCPNumber pt
        (now + portReuseSetLastusedTime) := by
  simp [checkTCPTermination, hnofin, hnorst, hack, h2]

/-- The FIN branch of the tracker never touches the translation tables
and never changes a slot's `lastused`: it either leaves the state alone
or rewrites the slot's counter fields. -/
theorem checkTCPTermination_fin_shape (pp : portPair) (i : Bool) (flags pt dir : Nat)
    (now : Int) (hfin : flags &&& TCPFlagFin ≠ 0) :
    checkTCPTermination pp i flags pt dir now = pp ∨
      ∃ e : portMapEntry, e.lastused = (pp.PublicPort.portmap i TCPNumber pt).lastused ∧
        checkTCPTermination pp i flags pt dir now = setPublicPortmapEntry pp i TCPNumber pt e := by
  by_cases h0 : (pp.PublicPort.portmap i TCPNumber pt).finCount = 0
  · exact Or.inr ⟨{ pp.PublicPort.portmap i TCPNumber pt with
      finCount := 1, terminationDirection := dir }, rfl,
      checkTCPTermination_fin_zero pp i flags pt dir now hfin h0⟩
  · by_cases h1 : (pp.PublicPort.portmap i TCPNumber pt).finCount = 1
    · by_cases hterm : (pp.PublicPort.portmap i TCPNumber pt).terminationDirection =
        complement8 dir
      · exact Or.inr ⟨{ pp.PublicPort.portmap i TCPNumber pt with finCount := 2 }, rfl,
          checkTCPTermination_fin_advance pp i flags pt dir now hfin h1 hterm⟩
      · exact Or.inl (checkTCPTermination_fin_stall pp i flags pt dir now hfin h1 hterm)
    · left
      simp [checkTCPTermination, hfin, h0, h1]

/-- Egress allocation never touches the private side's neighbor cache. -/
theorem allocateNewEgressConnection_priv_arpTable (pp : portPair) (i : Bool)
    (pr : Nat) (k : TKey) (now : Int) :
    (allocateNewEgressConnection pp i pr k now).2.PrivatePort.arpTable =
      pp.PrivatePort.arpTable := by
  unfold allocateNewEgressConnection allocNewPort
  cases hf : findFreePort pp i pr now with
  | none => rfl
  | some p =>
      simp only [storePrivTable_priv_arpTable, storePubTable_priv,
        setPublicPortmapEntry_PrivatePort]
      exact deleteOldConnection_priv_arpTable pp i pr p

/-- The termination tracker never touches the private side's neighbor
cache. -/
theorem checkTCPTermination_priv_arpTable (pp : portPair) (i : Bool)
    (flags pt dir : Nat) (now : Int) :
    (checkTCPTermination pp i flags pt dir now).PrivatePort.arpTable =
      pp.PrivatePort.arpTable := by
  simp only [checkTCPTermination]
  split
  · split
    · rfl
    split
    · rfl
    · rfl
  split
  · exact deleteOldConnection_priv_arpTable pp i TCPNumber pt
  split
  · split
    · simp only [setPublicPortmapLastused, setPublicPortmapEntry_PrivatePort]
      exact deleteOldConnection_priv_arpTable pp i TCPNumber pt
    · rfl
  · rfl

/-- The egress forwarding tail never touches the private side's neighbor
cache. -/
theorem egressForward_priv_arpTable (pp1 : portPair) (pkt : Packet) (i : Bool)
    (newPort : Nat) (now : Int) :
    (egressForward pp1 pkt i newPort now).2.PrivatePort.arpTable =
      pp1.PrivatePort.arpTable := by
  simp only [egressForward]
  split <;> split <;>
    first
      | rfl
      | exact checkTCPTermination_priv_arpTable _ _ _ _ _ _

/-! ### Claim theorems -/

/-- On an ingress lookup miss (parsed IP packet of a supported protocol),
the procedure ends in one of four outcomes: an ICMP-handler decision
(which is never `SEND`), a DHCP drop, or the KNI/DROP miss decisions after
neighbor learning. -/
theorem ingress_miss_cases (pp : portPair) (pkt : Packet) (now : Int)
    (hip : pkt.isIP = true) (hproto : pkt.protocol ≠ 0)
    (hmiss : pp.PublicPort.translationTable pkt.protocol (ingressKey pkt) = none) :
    (PublicToPrivateTranslation pp pkt now = (pkt.icmpDir, pp) ∧ pkt.icmpDir ≠ Dir.SEND) ∨
      PublicToPrivateTranslation pp pkt now = (Dir.DROP, pp) ∨
      PublicToPrivateTranslation pp pkt now = (Dir.KNI, learnPubArp pp pkt) ∨
      PublicToPrivateTranslation pp pkt now = (Dir.DROP, learnPubArp pp pkt) := by
  by_cases hicmp : pkt.isICMP = true ∧ pkt.icmpDir ≠ Dir.SEND
  · left
    refine ⟨?_, hicmp.2⟩
    simp [PublicToPrivateTranslation, hip, hproto, hicmp]
  · by_cases hdhcp : pkt.isUDP = true ∧ pkt.dhcpHandled = true
    · right; left
      simp [PublicToPrivateTranslation, hip, hproto, hicmp, hdhcp]
    · by_cases hkni : pp.PublicPort.kniPresent = true ∧
        sideAddressAcquired pp.PublicPort pkt.isIPv6 = true
      · right; right; left
        simp [PublicToPrivateTranslation, hip, hproto, hicmp, hdhcp, hmiss, hkni]
      · right; right; right
        simp [PublicToPrivateTranslation, hip, hproto, hicmp, hdhcp, hmiss, hkni]

/-- C1: an ingress (public→private) packet whose lookup key (destination
address, destination port) has no mapping in the public→private table of
its protocol is decided `Drop` or `RedirectToHost` (`KNI`), never
`Forward` (`SEND`), and neither side's translation tables are mutated on
this path. -/
theorem C1_no_new_inbound_sessions (pp : portPair) (pkt : Packet) (now : Int)
    (hip : pkt.isIP = true) (hproto : pkt.protocol ≠ 0)
    (hmiss : pp.PublicPort.translationTable pkt.protocol (ingressKey pkt) = none) :
    ((PublicToPrivateTranslation pp pkt now).1 = Dir.DROP ∨
      (PublicToPrivateTranslation pp pkt now).1 = Dir.KNI) ∧
    (PublicToPrivateTranslation pp pkt now).2.PublicPort.translationTable =
      pp.PublicPort.translationTable ∧
    (PublicToPrivateTranslation pp pkt now).2.PrivatePort.translationTable =
      pp.PrivatePort.translationTable := by
  rcases ingress_miss_cases pp pkt now hip hproto hmiss with ⟨heq, hne⟩ | heq | heq | heq
  · rw [heq]
    refine ⟨?_, rfl, rfl⟩
    cases hd : pkt.icmpDir
    · exact Or.inl rfl
    · exact absurd hd hne
    · exact Or.inr rfl
  · rw [heq]
    exact ⟨Or.inl rfl, rfl, rfl⟩
  · rw [heq]
    exact ⟨Or.inr rfl, rfl, rfl⟩
  · rw [heq]
    exact ⟨Or.inl rfl, rfl, rfl⟩

theorem C1_no_new_inbound_sessions_witness :
    ((PublicToPrivateTranslation basePair udpIngressPkt 10).1 = Dir.DROP ∨
      (PublicToPrivateTranslation basePair udpIngressPkt 10).1 = Dir.KNI) ∧
    (PublicToPrivateTranslation basePair udpIngressPkt 10).2.PublicPort.translationTable =
      basePair.PublicPort.translationTable ∧
    (PublicToPrivateTranslation basePair udpIngressPkt 10).2.PrivatePort.translationTable =
      basePair.PrivatePort.translationTable :=
  C1_no_new_inbound_sessions basePair udpIngressPkt 10 rfl (by decide) rfl

/-- C2: the pairing invariant — a tuple is a key of the public→private
table iff its paired tuple is a key of the private→public table of the
same protocol — is preserved by both per-packet entry points, which
perform every table mutation (egress allocation, idle reap, TCP
termination deletion); hence no reachable state has an entry in one table
without its pair in the other. -/
theorem C2_pairing_invariant (pp : portPair) (pkt : Packet) (now : Int)
    (h : Paired pp) :
    Paired (PublicToPrivateTranslation pp pkt now).2 ∧
      Paired (PrivateToPublicTranslation pp pkt now).2 :=
  ⟨paired_PublicToPrivateTranslation pp pkt now h,
    paired_PrivateToPublicTranslation pp pkt now h⟩

theorem C2_pairing_invariant_witness :
    Paired (PublicToPrivateTranslation basePair udpIngressPkt 10).2 ∧
      Paired (PrivateToPublicTranslation basePair udpIngressPkt 10).2 :=
  C2_pairing_invariant basePair udpIngressPkt 10 (by
    intro proto a b
    simp [basePair, basePublicPort, basePrivatePort, temptyTable])

/-- A TCP mapping slot just before the first FIN: `finCount = 0`. -/
def ppFin0 : portPair := pairWithMapping TCPNumber ⟨50, 0, 0, false⟩

/-- A TCP mapping slot after one FIN from the private→public side
(`terminationDirection = pri2pub = 0x0f`). -/
def ppFin1 : portPair := pairWithMapping TCPNumber ⟨50, 1, 15, false⟩

/-- A TCP mapping slot after one FIN recorded from the public→private
side (`terminationDirection = pub2pri = 0xf0`). -/
def ppFin1opp : portPair := pairWithMapping TCPNumber ⟨50, 1, 240, false⟩

/-- C7: a FIN observation at `finCount = 0` sets `finCount = 1` and
records the observing side; at `finCount = 1` a FIN from the opposite
side (the recorded side is the complement of the observer) advances to
`finCount = 2` leaving `terminationDirection` unchanged; a FIN from the
same side that set it changes nothing — so `finCount = 2` needs one FIN
from each side. -/
theorem C7_fin_counting (pa pb pc : portPair) (i : Bool) (fa fb fc pt dir : Nat)
    (now : Int)
    (hfa : fa &&& TCPFlagFin ≠ 0) (hfb : fb &&& TCPFlagFin ≠ 0)
    (hfc : fc &&& TCPFlagFin ≠ 0)
    (hdir : dir = pri2pub ∨ dir = pub2pri)
    (ha : (pa.PublicPort.portmap i TCPNumber pt).finCount = 0)
    (hb1 : (pb.PublicPort.portmap i TCPNumber pt).finCount = 1)
    (hb2 : (pb.PublicPort.portmap i TCPNumber pt).terminationDirection = complement8 dir)
    (hc1 : (pc.PublicPort.portmap i TCPNumber pt).finCount = 1)
    (hc2 : (pc.PublicPort.portmap i TCPNumber pt).terminationDirection = dir) :
    checkTCPTermination pa i fa pt dir now =
      setPublicPortmapEntry pa i TCPNumber pt
        { pa.PublicPort.portmap i TCPNumber pt with
          finCount := 1, terminationDirection := dir } ∧
    checkTCPTermination pb i fb pt dir now =
      setPublicPortmapEntry pb i TCPNumber pt
        { pb.PublicPort.portmap i TCPNumber pt with finCount := 2 } ∧
    checkTCPTermination pc i fc pt dir now = pc := by
  refine ⟨checkTCPTermination_fin_zero pa i fa pt dir now hfa ha,
    checkTCPTermination_fin_advance pb i fb pt dir now hfb hb1 hb2,
    checkTCPTermination_fin_stall pc i fc pt dir now hfc hc1 ?_⟩
  rw [hc2]
  rcases hdir with h | h <;> subst h <;> decide

theorem C7_fin_counting_witness :
    checkTCPTermination ppFin0 false 1 1024 pri2pub 100 =
      setPublicPortmapEntry ppFin0 false TCPNumber 1024
        { ppFin0.PublicPort.portmap false TCPNumber 1024 with
          finCount := 1, terminationDirection := pri2pub } ∧
    checkTCPTermination ppFin1opp false 1 1024 pri2pub 100 =
      setPublicPortmapEntry ppFin1opp false TCPNumber 1024
        { ppFin1opp.PublicPort.portmap false TCPNumber 1024 with finCount := 2 } ∧
    checkTCPTermination ppFin1 false 1 1024 pri2pub 100 = ppFin1 :=
  C7_fin_counting ppFin0 ppFin1opp ppFin1 false 1 1 1 1024 pri2pub 100
    (by decide) (by decide) (by decide) (Or.inl rfl) (by decide) (by decide) (by decide)
    (by decide) (by decide)

/-- C8: a packet carrying both FIN and ACK is processed as a FIN, not an
ACK: the translation tables, the whole private side and the slot's
`lastused` are unchanged by the tracker, and at `finCount = 2` such a
packet changes nothing at all — the mapping is not deleted and no
hold-down timestamp is written; the ACK deletion path runs only when FIN
is clear. -/
theorem C8_fin_ack_treated_as_fin (p q : portPair) (i : Bool) (flags pt dir : Nat)
    (now : Int)
    (hfin : flags &&& TCPFlagFin ≠ 0) ( _hack : flags &&& TCPFlagAck ≠ 0)
    (hq2 : (q.PublicPort.portmap i TCPNumber pt).finCount = 2) :
    (checkTCPTermination p i flags pt dir now).PublicPort.translationTable =
      p.PublicPort.translationTable ∧
    (checkTCPTermination p i flags pt dir now).PrivatePort = p.PrivatePort ∧
    ((checkTCPTermination p i flags pt dir now).PublicPort.portmap i TCPNumber pt).lastused =
      (p.PublicPort.portmap i TCPNumber pt).lastused ∧
    checkTCPTermination q i flags pt dir now = q := by
  have hdone := checkTCPTermination_fin_done q i flags pt dir now hfin hq2
  rcases checkTCPTermination_fin_shape p i flags pt dir now hfin with heq | ⟨e, he, heq⟩
  · rw [heq]
    exact ⟨rfl, rfl, rfl, hdone⟩
  · rw [heq]
    refine ⟨rfl, rfl, ?_, hdone⟩
    rw [setPublicPortmapEntry_portmap_same]
    exact he

theorem C8_fin_ack_treated_as_fin_witness :
    (checkTCPTermination ppFin1 false 17 1024 pub2pri 100).PublicPort.translationTable =
      ppFin1.PublicPort.translationTable ∧
    (checkTCPTermination ppFin1 false 17 1024 pub2pri 100).PrivatePort =
      ppFin1.PrivatePort ∧
    ((checkTCPTermination ppFin1 false 17 1024 pub2pri 100).PublicPort.portmap false
        TCPNumber 1024).lastused =
      (ppFin1.PublicPort.portmap false TCPNumber 1024).lastused ∧
    checkTCPTermination (pairWithMapping TCPNumber ⟨50, 2, 15, false⟩) false 17 1024
      pub2pri 100 = pairWithMapping TCPNumber ⟨50, 2, 15, false⟩ :=
  C8_fin_ack_treated_as_fin ppFin1 (pairWithMapping TCPNumber ⟨50, 2, 15, false⟩)
    false 17 1024 pub2pri 100 (by decide) (by decide) (by decide)

/-- C5 as stated is false at this input: the packet's flag byte is
`5 = FIN ||| RST`, the mapping is non-static with `finCount = 1`, yet the
tracker does not delete it — the FIN test runs first, so a packet with
both FIN and RST set is handled as a FIN and the mapping survives. -/
theorem C5_counterexample :
    (5 &&& TCPFlagRst ≠ 0) ∧
    ((ppFin1.PublicPort.portmap false TCPNumber 1024).static = false) ∧
    (checkTCPTermination ppFin1 false 5 1024 pri2pub 100).PublicPort.translationTable
      TCPNumber pubKeySample = some privKeySample ∧
    (checkTCPTermination ppFin1 false 5 1024 pri2pub 100).PrivatePort.translationTable
      TCPNumber privKeySample = some pubKeySample := by
  exact ⟨by decide, by decide, by decide, by decide⟩

/-- C5 amended: for every TCP packet with RST set **and FIN clear** that
reaches the tracker, the mapping is deleted immediately and
unconditionally — regardless of the current `finCount` (the hypotheses
place no constraint on it) and of the other flags (ACK may be set) — and
the freed slot is reset to the zero entry, with no hold-down written. -/
theorem C5_rst_immediate_delete (pp : portPair) (i : Bool) (flags pt dir : Nat)
    (now : Int) (privKey : TKey)
    (hnofin : flags &&& TCPFlagFin = 0) (hrst : flags &&& TCPFlagRst ≠ 0)
    (hk : pp.PublicPort.translationTable TCPNumber (publicKeyForPort pp i pt) =
      some privKey) :
    (checkTCPTermination pp i flags pt dir now).PublicPort.translationTable TCPNumber
      (publicKeyForPort pp i pt) = none ∧
    (checkTCPTermination pp i flags pt dir now).PrivatePort.translationTable TCPNumber
      privKey = none ∧
    (checkTCPTermination pp i flags pt dir now).PublicPort.portmap i TCPNumber pt =
      zeroPortMapEntry := by
  rw [checkTCPTermination_rst pp i flags pt dir now hnofin hrst]
  exact ⟨deleteOldConnection_pub_lookup_self pp i TCPNumber pt,
    deleteOldConnection_priv_of_some hk,
    deleteOldConnection_portmap_self pp i TCPNumber pt⟩

theorem C5_rst_immediate_delete_witness :
    (checkTCPTermination ppFin1 false 20 1024 pri2pub 100).PublicPort.translationTable
      TCPNumber (publicKeyForPort ppFin1 false 1024) = none ∧
    (checkTCPTermination ppFin1 false 20 1024 pri2pub 100).PrivatePort.translationTable
      TCPNumber privKeySample = none ∧
    (checkTCPTermination ppFin1 false 20 1024 pri2pub 100).PublicPort.portmap false
      TCPNumber 1024 = zeroPortMapEntry :=
  C5_rst_immediate_delete ppFin1 false 20 1024 pri2pub 100 privKeySample
    (by decide) (by decide) (by decide)

/-- C4: on a non-static TCP mapping starting at `finCount = 0`, the
observation sequence FIN(private→public), FIN(public→private), then
ACK-without-FIN (from either side, no RST) deletes both translation-table
entries and leaves the freed slot with
`lastused = now + portReuseSetLastusedTime`, so the slot is not free
(`portIsFree` is false, i.e. the port is treated as in use and is
ineligible for non-static reuse) at any time up to that timestamp. -/
theorem C4_tcp_close_sequence (pp : portPair) (i : Bool) (pt : Nat)
    (flags1 flags2 flags3 dir3 : Nat) (now1 now2 now3 : Int) (privKey : TKey)
    (hfin1 : flags1 &&& TCPFlagFin ≠ 0) (hfin2 : flags2 &&& TCPFlagFin ≠ 0)
    (hnofin3 : flags3 &&& TCPFlagFin = 0) (hnorst3 : flags3 &&& TCPFlagRst = 0)
    (hack3 : flags3 &&& TCPFlagAck ≠ 0)
    (hfc : (pp.PublicPort.portmap i TCPNumber pt).finCount = 0)
    (hk : pp.PublicPort.translationTable TCPNumber (publicKeyForPort pp i pt) =
      some privKey) :
    (checkTCPTermination (checkTCPTermination (checkTCPTermination pp i flags1 pt
        pri2pub now1) i flags2 pt pub2pri now2) i flags3 pt dir3
        now3).PublicPort.translationTable TCPNumber (publicKeyForPort pp i pt) = none ∧
    (checkTCPTermination (checkTCPTermination (checkTCPTermination pp i flags1 pt
        pri2pub now1) i flags2 pt pub2pri now2) i flags3 pt dir3
        now3).PrivatePort.translationTable TCPNumber privKey = none ∧
    (checkTCPTermination (checkTCPTermination (checkTCPTermination pp i flags1 pt
        pri2pub now1) i flags2 pt pub2pri now2) i flags3 pt dir3
        now3).PublicPort.portmap i TCPNumber pt =
      { zeroPortMapEntry with lastused := now3 + portReuseSetLastusedTime } ∧
    ∀ t : Int, t ≤ now3 + portReuseSetLastusedTime →
      portIsFree ((checkTCPTermination (checkTCPTermination (checkTCPTermination pp i
        flags1 pt pri2pub now1) i flags2 pt pub2pri now2) i flags3 pt dir3
        now3).PublicPort.portmap i TCPNumber pt) t = false := by
  rw [checkTCPTermination_fin_zero pp i flags1 pt pri2pub now1 hfin1 hfc]
  rw [checkTCPTermination_fin_advance _ i flags2 pt pub2pri now2 hfin2
    (by simp) (by simp [complement8_pub2pri])]
  rw [checkTCPTermination_ack_final _ i flags3 pt dir3 now3 hnofin3 hnorst3 hack3
    (by simp)]
  have hslot :
      (setPublicPortmapLastused (deleteOldConnection (setPublicPortmapEntry
        (setPublicPortmapEntry pp i TCPNumber pt
          { pp.PublicPort.portmap i TCPNumber pt with
            finCount := 1, terminationDirection := pri2pub }) i TCPNumber pt
          { (setPublicPortmapEntry pp i TCPNumber pt
              { pp.PublicPort.portmap i TCPNumber pt with
                finCount := 1, terminationDirection := pri2pub }).PublicPort.portmap i
              TCPNumber pt with finCount := 2 }) i TCPNumber pt) i TCPNumber pt
        (now3 + portReuseSetLastusedTime)).PublicPort.portmap i TCPNumber pt =
      { zeroPortMapEntry with lastused := now3 + portReuseSetLastusedTime } := by
    simp [setPublicPortmapLastused, deleteOldConnection_portmap_self]
  refine ⟨?_, ?_, hslot, ?_⟩
  · exact deleteOldConnection_pub_lookup_self _ i TCPNumber pt
  · exact deleteOldConnection_priv_of_some hk
  · intro t ht
    rw [hslot]
    simp only [portIsFree, zeroPortMapEntry, connectionTimeout]
    simp only [Bool.not_false, Bool.true_and, decide_eq_false_iff_not, not_lt]
    omega

theorem C4_tcp_close_sequence_witness :
    (checkTCPTermination (checkTCPTermination (checkTCPTermination ppFin0 false 1 1024
        pri2pub 60) false 1 1024 pub2pri 61) false 16 1024 15
        62).PublicPort.translationTable TCPNumber (publicKeyForPort ppFin0 false 1024) =
      none ∧
    (checkTCPTermination (checkTCPTermination (checkTCPTermination ppFin0 false 1 1024
        pri2pub 60) false 1 1024 pub2pri 61) false 16 1024 15
        62).PrivatePort.translationTable TCPNumber privKeySample = none ∧
    (checkTCPTermination (checkTCPTermination (checkTCPTermination ppFin0 false 1 1024
        pri2pub 60) false 1 1024 pub2pri 61) false 16 1024 15
        62).PublicPort.portmap false TCPNumber 1024 =
      { zeroPortMapEntry with lastused := 62 + portReuseSetLastusedTime } ∧
    ∀ t : Int, t ≤ 62 + portReuseSetLastusedTime →
      portIsFree ((checkTCPTermination (checkTCPTermination (checkTCPTermination ppFin0
        false 1 1024 pri2pub 60) false 1 1024 pub2pri 61) false 16 1024 15
        62).PublicPort.portmap false TCPNumber 1024) t = false :=
  C4_tcp_close_sequence ppFin0 false 1024 1 1 16 15 60 61 62 privKeySample
    (by decide) (by decide) (by decide) (by decide) (by decide) (by decide) (by decide)

/-- A pair whose sample UDP mapping is stale at time 100: `lastused = 0`,
`static = false`, and `connectionTimeout = 60 < 100`. -/
def ppStale : portPair := pairWithMapping UDPNumber ⟨0, 0, 0, false⟩

/-- C3 as stated is false at this input: the sample UDP mapping is
non-static and idle longer than `connectionTimeout` at time 100, the
egress packet's lookup hits it, yet the packet is forwarded (`SEND`, not
dropped), the mapping survives, and its `lastused` is refreshed — the
egress path has no staleness check. -/
theorem C3_counterexample :
    ((ppStale.PublicPort.portmap false UDPNumber 1024).static = false) ∧
    (connectionTimeout <
      100 - (ppStale.PublicPort.portmap false UDPNumber 1024).lastused) ∧
    (ppStale.PrivatePort.translationTable UDPNumber (egressKey udpEgressPkt) =
      some pubKeySample) ∧
    (PrivateToPublicTranslation ppStale udpEgressPkt 100).1 = Dir.SEND ∧
    ((PrivateToPublicTranslation ppStale udpEgressPkt
      100).2.PrivatePort.translationTable UDPNumber privKeySample = some pubKeySample) ∧
    (((PrivateToPublicTranslation ppStale udpEgressPkt 100).2.PublicPort.portmap false
      UDPNumber 1024).lastused = 100) :=
  ⟨by decide, by decide, by decide, by decide, by decide, by decide⟩

/-- C3 amended: a non-static mapping whose `lastUsed` is older than
`connectionTimeout` is deleted — and the triggering packet dropped — on
the very next **public→private** lookup hit; a **private→public** lookup
hit performs no staleness check: it refreshes the public-side slot's
`lastused` to now and leaves the mapping in place (the packet proceeds
like any other egress hit). -/
theorem C3_idle_reap (pp : portPair) (pktI pktE : Packet) (now : Int) (v w : TKey)
    (hIip : pktI.isIP = true) (hIproto : pktI.protocol ≠ 0)
    (hIicmp : ¬(pktI.isICMP = true ∧ pktI.icmpDir ≠ Dir.SEND))
    (hIdhcp : ¬(pktI.isUDP = true ∧ pktI.dhcpHandled = true))
    (hIhit : pp.PublicPort.translationTable pktI.protocol (ingressKey pktI) = some v)
    (hIstatic : (pp.PublicPort.portmap pktI.isIPv6 pktI.protocol pktI.dstPort).static =
      false)
    (hIstale : connectionTimeout <
      now - (pp.PublicPort.portmap pktI.isIPv6 pktI.protocol pktI.dstPort).lastused)
    (hEip : pktE.isIP = true) (hEproto : pktE.protocol ≠ 0)
    (hEicmp : ¬(pktE.isICMP = true ∧ pktE.icmpDir ≠ Dir.SEND))
    (hEdhcp : ¬(pktE.isUDP = true ∧ pktE.dhcpHandled = true))
    (hEsent : ¬(pp.PrivatePort.kniPresent = true ∧
      sideAddressAcquired pp.PrivatePort pktE.isIPv6 = true ∧
      packetSentToUs pp.PrivatePort pktE = true))
    (hEhit : pp.PrivatePort.translationTable pktE.protocol (egressKey pktE) = some w)
    (hEtcp : pktE.isTCP = false) :
    PublicToPrivateTranslation pp pktI now =
      (Dir.DROP, deleteOldConnection pp pktI.isIPv6 pktI.protocol pktI.dstPort) ∧
    ((PrivateToPublicTranslation pp pktE now).2.PublicPort.portmap pktE.isIPv6
      pktE.protocol (getAddrFromTuple w pktE.isIPv6).newPort).lastused = now ∧
    (PrivateToPublicTranslation pp pktE now).2.PrivatePort.translationTable
      pktE.protocol (egressKey pktE) = some w := by
  have hnotle : ¬(now -
      (pp.PublicPort.portmap pktI.isIPv6 pktI.protocol pktI.dstPort).lastused ≤
        connectionTimeout) := not_le.mpr hIstale
  have heg : (PrivateToPublicTranslation pp pktE now).2 =
      setPublicPortmapLastused pp pktE.isIPv6 pktE.protocol
        (getAddrFromTuple w pktE.isIPv6).newPort now := by
    simp only [PrivateToPublicTranslation, hEhit]
    rw [if_neg (by simp [hEip]), if_neg hEproto, if_neg hEicmp,
      if_neg (by simp [hEdhcp]), if_neg hEsent]
    split
    · simp only [egressForward]
      rw [if_neg (by simp [hEtcp])]
      split <;> rfl
    · rfl
  refine ⟨?_, ?_, ?_⟩
  · simp [PublicToPrivateTranslation, hIip, hIproto, hIicmp, hIdhcp, hIhit, hIstatic,
      hnotle]
  · rw [heg]
    simp [setPublicPortmapLastused]
  · rw [heg]
    exact hEhit

theorem C3_idle_reap_witness :
    (PublicToPrivateTranslation ppStale udpIngressPkt 100 =
      (Dir.DROP, deleteOldConnection ppStale false UDPNumber 1024)) ∧
    ((PrivateToPublicTranslation ppStale udpEgressPkt 100).2.PublicPort.portmap false
      UDPNumber (getAddrFromTuple pubKeySample false).newPort).lastused = 100 ∧
    (PrivateToPublicTranslation ppStale udpEgressPkt 100).2.PrivatePort.translationTable
      UDPNumber (egressKey udpEgressPkt) = some pubKeySample :=
  C3_idle_reap ppStale udpIngressPkt udpEgressPkt 100 privKeySample pubKeySample
    rfl (by decide) (by decide) (by decide) (by decide) (by decide) (by decide)
    rfl (by decide) (by decide) (by decide) (by decide) (by decide) (by decide)

/-- C6: on an egress lookup miss with both addresses acquired but no free
port in the pool, the decision is `Drop` and the failed allocation leaves
the state untouched except for the neighbor-cache learning that precedes
it: both translation tables and the port map are unchanged. -/
theorem C6_pool_exhaustion (pp : portPair) (pkt : Packet) (now : Int)
    (hip : pkt.isIP = true) (hproto : pkt.protocol ≠ 0)
    (hicmp : ¬(pkt.isICMP = true ∧ pkt.icmpDir ≠ Dir.SEND))
    (hdhcp : ¬(pkt.isUDP = true ∧ pkt.dhcpHandled = true))
    (hsent : ¬(pp.PrivatePort.kniPresent = true ∧
      sideAddressAcquired pp.PrivatePort pkt.isIPv6 = true ∧
      packetSentToUs pp.PrivatePort pkt = true))
    (hmiss : pp.PrivatePort.translationTable pkt.protocol (egressKey pkt) = none)
    (hacq : sideAddressAcquired pp.PrivatePort pkt.isIPv6 = true)
    (hpubacq : sideAddressAcquired pp.PublicPort pkt.isIPv6 = true)
    (hfull : findFreePort pp pkt.isIPv6 pkt.protocol now = none) :
    PrivateToPublicTranslation pp pkt now = (Dir.DROP, learnPrivArp pp pkt) ∧
    (PrivateToPublicTranslation pp pkt now).2.PublicPort.translationTable =
      pp.PublicPort.translationTable ∧
    (PrivateToPublicTranslation pp pkt now).2.PrivatePort.translationTable =
      pp.PrivatePort.translationTable ∧
    (PrivateToPublicTranslation pp pkt now).2.PublicPort.portmap =
      pp.PublicPort.portmap := by
  have hfull' : findFreePort (learnPrivArp pp pkt) pkt.isIPv6 pkt.protocol now = none :=
    hfull
  have hres : PrivateToPublicTranslation pp pkt now = (Dir.DROP, learnPrivArp pp pkt) := by
    simp only [PrivateToPublicTranslation, hmiss]
    rw [if_neg (by simp [hip]), if_neg hproto, if_neg hicmp, if_neg (by simp [hdhcp]),
      if_neg hsent, if_neg (by simp [hacq, hpubacq])]
    simp only [allocateNewEgressConnection, allocNewPort, hfull']
  rw [hres]
  exact ⟨rfl, rfl, rfl, rfl⟩

theorem C6_pool_exhaustion_witness :
    PrivateToPublicTranslation basePair udpEgressPkt 50 =
      (Dir.DROP, learnPrivArp basePair udpEgressPkt) ∧
    (PrivateToPublicTranslation basePair udpEgressPkt 50).2.PublicPort.translationTable =
      basePair.PublicPort.translationTable ∧
    (PrivateToPublicTranslation basePair udpEgressPkt 50).2.PrivatePort.translationTable =
      basePair.PrivatePort.translationTable ∧
    (PrivateToPublicTranslation basePair udpEgressPkt 50).2.PublicPort.portmap =
      basePair.PublicPort.portmap :=
  C6_pool_exhaustion basePair udpEgressPkt 50 rfl (by decide) (by decide) (by decide)
    (by decide) (by decide) (by decide) (by decide) (by decide)

/-- C9: on every egress lookup miss, the packet's source IP → source MAC
pair is stored into the private side's neighbor cache, whatever happens
afterwards — the entry is present in the post-state even when the packet
is then dropped for an unacquired address or a failed allocation. -/
theorem C9_egress_miss_learns_neighbor (pp : portPair) (pkt : Packet) (now : Int)
    (hip : pkt.isIP = true) (hproto : pkt.protocol ≠ 0)
    (hicmp : ¬(pkt.isICMP = true ∧ pkt.icmpDir ≠ Dir.SEND))
    (hdhcp : ¬(pkt.isUDP = true ∧ pkt.dhcpHandled = true))
    (hsent : ¬(pp.PrivatePort.kniPresent = true ∧
      sideAddressAcquired pp.PrivatePort pkt.isIPv6 = true ∧
      packetSentToUs pp.PrivatePort pkt = true))
    (hmiss : pp.PrivatePort.translationTable pkt.protocol (egressKey pkt) = none) :
    (PrivateToPublicTranslation pp pkt now).2.PrivatePort.arpTable
      (pkt.isIPv6, pkt.srcAddr) = some pkt.etherSAddr := by
  simp only [PrivateToPublicTranslation, hip, hproto, hicmp, hdhcp, hsent, hmiss]
  simp only [ne_eq, not_true_eq_false, if_false, reduceIte]
  split
  · simp
  split
  · rename_i pp1 heq
    have hpres := allocateNewEgressConnection_priv_arpTable (learnPrivArp pp pkt)
      pkt.isIPv6 pkt.protocol (egressKey pkt) now
    rw [heq] at hpres
    rw [hpres]
    simp
  · rename_i v4a v6a newPort pp1 heq
    have hpres := allocateNewEgressConnection_priv_arpTable (learnPrivArp pp pkt)
      pkt.isIPv6 pkt.protocol (egressKey pkt) now
    rw [heq] at hpres
    rw [egressForward_priv_arpTable, hpres]
    simp

theorem C9_egress_miss_learns_neighbor_witness :
    (PrivateToPublicTranslation basePair udpEgressPkt 50).2.PrivatePort.arpTable
      (udpEgressPkt.isIPv6, udpEgressPkt.srcAddr) = some udpEgressPkt.etherSAddr :=
  C9_egress_miss_learns_neighbor basePair udpEgressPkt 50 rfl (by decide) (by decide)
    (by decide) (by decide) (by decide)

/-- An egress packet of the sample flow addressed to the private side's
own IPv4 address (3, network byte order on the wire). -/
def pktToUs : Packet :=
  { udpEgressPkt with dstAddr := swapBytesIPv4Addr 3 }

/-- `pairWithMapping` with host redirect disabled on the private side and
the MAC of host 3 known on the public side. -/
def ppNoKni : portPair :=
  let pp0 := pairWithMapping UDPNumber ⟨90, 0, 0, false⟩
  let pp1 := { pp0 with PrivatePort := { pp0.PrivatePort with kniPresent := false } }
  { pp1 with PublicPort :=
      { pp1.PublicPort with arpTable := astore pp1.PublicPort.arpTable (false, 3) 33 } }

/-- C10: an egress packet addressed to one of the private side's own
identities is redirected to the host only when a host-redirect (KNI)
target exists and the side's address is acquired — and then nothing else
changes; when that guard fails, the packet is not dropped for being
addressed to us: it falls through to the normal lookup path and (here: a
hit with a resolvable neighbor) is translated and forwarded. -/
theorem C10_own_address_redirect (ppa ppb : portPair) (pkta pktb : Packet)
    (nowa nowb : Int) (v : TKey) (mac : Nat)
    (haip : pkta.isIP = true) (haproto : pkta.protocol ≠ 0)
    (haicmp : ¬(pkta.isICMP = true ∧ pkta.icmpDir ≠ Dir.SEND))
    (hadhcp : ¬(pkta.isUDP = true ∧ pkta.dhcpHandled = true))
    (hakni : ppa.PrivatePort.kniPresent = true)
    (haacq : sideAddressAcquired ppa.PrivatePort pkta.isIPv6 = true)
    (hasent : packetSentToUs ppa.PrivatePort pkta = true)
    (hbip : pktb.isIP = true) (hbproto : pktb.protocol ≠ 0)
    (hbicmp : ¬(pktb.isICMP = true ∧ pktb.icmpDir ≠ Dir.SEND))
    (hbdhcp : ¬(pktb.isUDP = true ∧ pktb.dhcpHandled = true))
    ( _hbsent : packetSentToUs ppb.PrivatePort pktb = true)
    (hbguard : ¬(ppb.PrivatePort.kniPresent = true ∧
      sideAddressAcquired ppb.PrivatePort pktb.isIPv6 = true))
    (hbhit : ppb.PrivatePort.translationTable pktb.protocol (egressKey pktb) = some v)
    (hbzero : (getAddrFromTuple v pktb.isIPv6).zeroAddr = false)
    (hbtcp : pktb.isTCP = false)
    (hbmac : ppb.PublicPort.arpTable
      (if pktb.isIPv6 = true then (true, pktb.dstAddr)
       else (false, swapBytesIPv4Addr pktb.dstAddr)) = some mac) :
    PrivateToPublicTranslation ppa pkta nowa = (Dir.KNI, ppa) ∧
    (PrivateToPublicTranslation ppb pktb nowb).1 = Dir.SEND := by
  have hbgate : ¬(ppb.PrivatePort.kniPresent = true ∧
      sideAddressAcquired ppb.PrivatePort pktb.isIPv6 = true ∧
      packetSentToUs ppb.PrivatePort pktb = true) :=
    fun h => hbguard ⟨h.1, h.2.1⟩
  refine ⟨?_, ?_⟩
  · simp [PrivateToPublicTranslation, haip, haproto, haicmp, hadhcp, hakni, haacq,
      hasent]
  · simp only [PrivateToPublicTranslation, hbhit]
    rw [if_neg (by simp [hbip]), if_neg hbproto, if_neg hbicmp,
      if_neg (by simp [hbdhcp]), if_neg hbgate, if_pos (by simp [hbzero])]
    simp only [egressForward]
    rw [if_neg (by simp [hbtcp])]
    have hbmac2 : (setPublicPortmapLastused ppb pktb.isIPv6 pktb.protocol
        (getAddrFromTuple v pktb.isIPv6).newPort nowb).PublicPort.arpTable
        (if pktb.isIPv6 = true then (true, pktb.dstAddr)
         else (false, swapBytesIPv4Addr pktb.dstAddr)) = some mac := hbmac
    rw [hbmac2]

theorem C10_own_address_redirect_witness :
    PrivateToPublicTranslation basePair pktToUs 100 = (Dir.KNI, basePair) ∧
    (PrivateToPublicTranslation ppNoKni pktToUs 100).1 = Dir.SEND :=
  C10_own_address_redirect basePair ppNoKni pktToUs pktToUs 100 100 pubKeySample 33
    rfl (by decide) (by decide) (by decide) (by decide) (by decide) (by decide)
    rfl (by decide) (by decide) (by decide) (by decide) (by decide) (by decide)
    (by decide) (by decide) (by decide)

end NffgoNat
